import Mathlib

/-! # Formal model of the llm-watch-grafana agent

A shallow embedding of the Node.js agent of the llm-watch-grafana
repository: the in-memory metrics store, the error taxonomy, the
provider adapters (Cerebras / Llama / OpenRouter, refactored and legacy
variants), the unified provider call interface, and the POST /call
handlers (refactored and legacy servers).

Modelling conventions:
- JavaScript numbers that carry fractional values (latency, cost,
  per-million rates) are modelled as exact rationals; integer counters
  and token counts as naturals.
- Nullable / possibly-absent JavaScript values are `Option`; the
  nullish-coalescing operator `a ?? b` is `Option.getD` / `Option.orElse`,
  while the truthiness-based `a || b` (which also skips empty strings)
  is modelled by dedicated `jsTruthy*` helpers.
- Wall-clock readings (`Date.now()`, `performance.now()` differences) and
  the outcome of an upstream `fetch` are inputs to the model, since they
  come from the outside world.
-/

/-- A string wrapped in single quotes, written with escapes so the model
source stays plain ASCII names and operators. -/
def sQuote (s : String) : String := "\x27" ++ s ++ "\x27"

/-- JavaScript truthiness-based `a || b` on nullable strings: the empty
string and null/undefined are falsy. -/
def jsTruthyOr (a b : Option String) : Option String :=
  match a with
  | some s => if s = "" then b else some s
  | none => b

/-- JavaScript truthiness-based `a || dflt` where `dflt` is a plain string. -/
def jsTruthyOrStr (a : Option String) (dflt : String) : String :=
  match a with
  | some s => if s = "" then dflt else s
  | none => dflt

/-- The result of `text.split(/\s+/)` in JavaScript: the maximal
whitespace-free tokens, plus an empty leading (resp. trailing) element when
the text starts (resp. ends) with whitespace. -/
def jsSplitWs (s : String) : List String :=
  let cs := s.toList
  let tokens := (s.split fun c => c.isWhitespace).filter fun w => w ≠ ""
  let lead : List String := if (cs.head?.map Char.isWhitespace).getD false then [""] else []
  let trail : List String := if (cs.getLast?.map Char.isWhitespace).getD false then [""] else []
  lead ++ tokens ++ trail

/-- `calculateTokens` from agent/tokenUtils.js: 0 for empty text, otherwise
`Math.ceil(text.split(/\s+/).length * 1.3)`, with the real-number product
modelled exactly (ceil of `13 * n / 10`). -/
def calculateTokens (text : String) : Nat :=
  if text = "" then 0 else (13 * (jsSplitWs text).length + 9) / 10

/-! ## Configuration (agent/config/index.js)

Per-provider configuration as loaded from the environment, with the
defaults that apply when the corresponding variables are unset. -/

structure ProviderConfig where
  apiKey : String
  apiUrl : String
  timeout : Nat
  costPerMillionTokens : ℚ
deriving Repr, DecidableEq

/-- Default Cerebras configuration (no API key set): timeout 30000 ms,
0.10 USD per million tokens. -/
def defaultCerebrasConfig : ProviderConfig :=
  { apiKey := ""
    apiUrl := "https://api.cerebras.ai/v1/chat/completions"
    timeout := 30000
    costPerMillionTokens := 1 / 10 }

/-- Default Llama configuration (no API key set): timeout 30000 ms,
0.50 USD per million tokens. -/
def defaultLlamaConfig : ProviderConfig :=
  { apiKey := ""
    apiUrl := "https://api.openrouter.ai/v1/chat/completions"
    timeout := 30000
    costPerMillionTokens := 1 / 2 }

/-- Default OpenRouter configuration (no API key set): timeout 30000 ms,
0.50 USD per million tokens. -/
def defaultOpenrouterConfig : ProviderConfig :=
  { apiKey := ""
    apiUrl := "https://openrouter.ai/api/v1/chat/completions"
    timeout := 30000
    costPerMillionTokens := 1 / 2 }

/-- `config.metrics.maxStorageSize` default (`METRICS_MAX_SIZE` unset). -/
def defaultMaxStorageSize : Nat := 500

/-! ## Metrics store (agent/utils/metrics.js) -/

/-- One stored metric entry, per the MetricEntry typedef of
agent/utils/metrics.js. -/
structure MetricEntry where
  timestamp : Nat
  provider : String
  model : String
  latency : ℚ
  promptTokens : Nat
  completionTokens : Nat
  totalTokens : Nat
  cost : ℚ
  error : Option String
deriving Repr, DecidableEq

/-- JavaScript truthiness of the `error` field (`if (metric.error)`):
null and the empty string are falsy. -/
def errTruthy : Option String → Bool
  | none => false
  | some s => s ≠ ""

/-- The MetricsStore state: the record list, the size cap, and the two
Prometheus counters. -/
structure MetricsStore where
  metrics : List MetricEntry
  maxSize : Nat
  requestsTotal : Nat
  errorsTotal : Nat
deriving Repr, DecidableEq

/-- `MetricsStore.add`: push the entry, evict the oldest entry when the
cap is exceeded, and bump the counters. -/
def MetricsStore.add (s : MetricsStore) (m : MetricEntry) : MetricsStore :=
  let pushed := s.metrics ++ [m]
  let trimmed := if pushed.length > s.maxSize then pushed.drop 1 else pushed
  { s with
    metrics := trimmed
    requestsTotal := s.requestsTotal + 1
    errorsTotal := if errTruthy m.error then s.errorsTotal + 1 else s.errorsTotal }

/-- `MetricsStore.getAll`: all stored metrics, oldest first. -/
def MetricsStore.getAll (s : MetricsStore) : List MetricEntry := s.metrics

/-- `MetricsStore.getLatest`: the most recent entry, or null. -/
def MetricsStore.getLatest (s : MetricsStore) : Option MetricEntry :=
  s.metrics.getLast?

/-- `MetricsStore.getLast(count)`, i.e. `metrics.slice(-count)`: the last
`count` entries; for `count = 0` JavaScript computes `slice(0)`, the whole
list. -/
def MetricsStore.getLast (s : MetricsStore) (count : Nat) : List MetricEntry :=
  if count = 0 then s.metrics else s.metrics.drop (s.metrics.length - count)

/-- The aggregate view returned by `getAggregates`. -/
structure AggregateView where
  avgLatency : ℚ
  avgCost : ℚ
  errorRate : ℚ
  totalRequests : Nat
deriving Repr, DecidableEq

/-- `MetricsStore.getAggregates(count)`: zeroed aggregates on an empty
window, otherwise averages over the last `count` entries and the fraction
of entries whose `error` is non-null. -/
def MetricsStore.getAggregates (s : MetricsStore) (count : Nat) : AggregateView :=
  let recent := s.getLast count
  if recent.length = 0 then
    { avgLatency := 0, avgCost := 0, errorRate := 0, totalRequests := 0 }
  else
    let n : ℚ := recent.length
    { avgLatency := (recent.map fun m => m.latency).sum / n
      avgCost := (recent.map fun m => m.cost).sum / n
      errorRate := ((recent.filter fun m => m.error ≠ none).length : ℚ) / n
      totalRequests := recent.length }

/-- A fresh store with the given size cap (the constructor state). -/
def emptyStore (maxSize : Nat) : MetricsStore :=
  { metrics := [], maxSize := maxSize, requestsTotal := 0, errorsTotal := 0 }

/-- A sequence of `add` calls, oldest first. -/
def appendAll (s : MetricsStore) (ms : List MetricEntry) : MetricsStore :=
  ms.foldl MetricsStore.add s

theorem appendAll_append (s : MetricsStore) (ms : List MetricEntry) (m : MetricEntry) :
    appendAll s (ms ++ [m]) = (appendAll s ms).add m := by
  simp [appendAll, List.foldl_append]

theorem appendAll_maxSize (s : MetricsStore) (ms : List MetricEntry) :
    (appendAll s ms).maxSize = s.maxSize := by
  induction ms generalizing s with
  | nil => rfl
  | cons m ms ih => simpa [appendAll, MetricsStore.add] using ih (s.add m)

theorem fifo_step (M : Nat) (ms : List MetricEntry) (m : MetricEntry) :
    (if M < (ms.drop (ms.length - M) ++ [m]).length
     then (ms.drop (ms.length - M) ++ [m]).drop 1
     else ms.drop (ms.length - M) ++ [m])
    = (ms ++ [m]).drop (ms.length + 1 - M) := by
  have hld : (ms.drop (ms.length - M)).length = ms.length - (ms.length - M) :=
    List.length_drop _ _
  by_cases h : ms.length < M
  · have h0 : ms.length - M = 0 := by omega
    have h1 : ms.length + 1 - M = 0 := by omega
    rw [h0, h1, List.drop_zero, List.drop_zero]
    have hc : ¬ (M < (ms ++ [m]).length) := by
      rw [List.length_append, List.length_singleton]
      omega
    rw [if_neg hc]
  · have hmin : (ms.drop (ms.length - M)).length = M := by omega
    rw [if_pos (by rw [List.length_append, List.length_singleton, hmin]; omega)]
    by_cases hM : M = 0
    · subst hM
      have he : ms.drop (ms.length - 0) = [] := by
        rw [Nat.sub_zero, List.drop_length]
      rw [he]
      have hr : (ms ++ [m]).length ≤ ms.length + 1 - 0 := by
        rw [List.length_append, List.length_singleton]
        omega
      rw [List.drop_eq_nil_of_le hr]
      rfl
    · have h1 : (ms.drop (ms.length - M) ++ [m]).drop 1
          = (ms.drop (ms.length - M)).drop 1 ++ [m] :=
        List.drop_append_of_le_length (by omega)
      have h2 : (ms.drop (ms.length - M)).drop 1 = ms.drop (ms.length - M + 1) := by
        rw [List.drop_drop]
      have h3 : ms.length - M + 1 = ms.length + 1 - M := by omega
      have h4 : (ms ++ [m]).drop (ms.length + 1 - M)
          = ms.drop (ms.length + 1 - M) ++ [m] :=
        List.drop_append_of_le_length (by omega)
      rw [h1, h2, h3, h4]

theorem add_metrics (s : MetricsStore) (m : MetricEntry) :
    (s.add m).metrics =
      if s.maxSize < (s.metrics ++ [m]).length
      then (s.metrics ++ [m]).drop 1 else s.metrics ++ [m] := rfl

theorem appendAll_metrics (M : Nat) (ms : List MetricEntry) :
    (appendAll (emptyStore M) ms).metrics = ms.drop (ms.length - M) := by
  induction ms using List.reverseRecOn with
  | nil => simp [appendAll, emptyStore]
  | append_singleton ms m ih =>
    rw [appendAll_append, add_metrics, ih, appendAll_maxSize]
    have hms : (emptyStore M).maxSize = M := rfl
    rw [hms]
    have hlen : (ms ++ [m]).length = ms.length + 1 := by
      rw [List.length_append, List.length_singleton]
    rw [hlen]
    exact fifo_step M ms m

/-- C1: for every sequence of N appends into a fresh MetricsStore with
cap M (and no other mutation), `getAll` returns exactly `min N M`
records, and they are precisely the most recently appended `min N M`
records in their original insertion order - the `N - M` oldest having
been evicted first (FIFO). The default cap, `defaultMaxStorageSize`, is
500. -/
theorem metricsStore_fifo (M : Nat) (ms : List MetricEntry) :
    (appendAll (emptyStore M) ms).getAll = ms.drop (ms.length - M)
    ∧ (appendAll (emptyStore M) ms).getAll.length = min ms.length M := by
  refine ⟨appendAll_metrics M ms, ?_⟩
  rw [MetricsStore.getAll, appendAll_metrics M ms]
  simp [Nat.sub_sub_self, Nat.min_comm]
  omega

/-! ## Error taxonomy (agent/utils/errors.js) -/

/-- A normalized LLMWatchError: message, machine code, HTTP status. -/
structure LLMWatchError where
  message : String
  code : String
  statusCode : Nat
deriving Repr, DecidableEq

/-- `ProviderError`: code PROVIDER_ERROR, HTTP 502. -/
def ProviderError (provider message : String) : LLMWatchError :=
  { message := "Provider " ++ sQuote provider ++ " error: " ++ message
    code := "PROVIDER_ERROR"
    statusCode := 502 }

/-- `APIKeyMissingError`: code API_KEY_MISSING, HTTP 500. -/
def APIKeyMissingError (provider : String) : LLMWatchError :=
  { message := "API key not configured for provider " ++ sQuote provider
    code := "API_KEY_MISSING"
    statusCode := 500 }

/-- `InvalidRequestError`: code INVALID_REQUEST, HTTP 400. -/
def InvalidRequestError (message : String) : LLMWatchError :=
  { message := message, code := "INVALID_REQUEST", statusCode := 400 }

/-- `TimeoutError`: code TIMEOUT, HTTP 504. -/
def TimeoutError (provider : String) (timeout : Nat) : LLMWatchError :=
  { message := "Request to provider " ++ sQuote provider ++ " timed out after "
      ++ toString timeout ++ "ms"
    code := "TIMEOUT"
    statusCode := 504 }

/-- `NetworkError`: code NETWORK_ERROR, HTTP 503. -/
def NetworkError (provider message : String) : LLMWatchError :=
  { message := "Network error for provider " ++ sQuote provider ++ ": " ++ message
    code := "NETWORK_ERROR"
    statusCode := 503 }

/-- A thrown JavaScript error: either one of our typed LLMWatchError values
or a plain Error with a name, an optional `code` property, and a message. -/
inductive JsError
  | llmError (e : LLMWatchError)
  | plain (name : String) (code : Option String) (message : String)
deriving Repr, DecidableEq

/-- The message carried by a thrown error. -/
def JsError.message : JsError → String
  | .llmError e => e.message
  | .plain _ _ msg => msg

/-- `handleError`: pass through typed errors, classify ECONNREFUSED and
ETIMEDOUT / TimeoutError, and wrap everything else as a ProviderError
(with an Unknown-error fallback for a falsy message). -/
def handleError (error : JsError) (provider : String) : LLMWatchError :=
  match error with
  | .llmError e => e
  | .plain name code message =>
    if code = some "ECONNREFUSED" then NetworkError provider "Connection refused"
    else if code = some "ETIMEDOUT" ∨ name = "TimeoutError" then
      TimeoutError provider 30000
    else ProviderError provider (if message = "" then "Unknown error" else message)

/-! ## Normalized results (providers/index.js, utils/errors.js) -/

/-- A usage block with all three token counts present. -/
structure Usage where
  prompt_tokens : Nat
  completion_tokens : Nat
  total_tokens : Nat
deriving Repr, DecidableEq

/-- The usage block substituted for missing fields: all zeros. -/
def zeroUsage : Usage := { prompt_tokens := 0, completion_tokens := 0, total_tokens := 0 }

/-- The raw object an adapter returns (fields may be absent in
JavaScript, hence all optional). -/
structure RawResult where
  ok : Option Bool
  provider : Option String
  model : Option String
  response : Option String
  output : Option String
  usage : Option Usage
  cost : Option ℚ
  latencyMs : Option ℚ
  latency : Option ℚ
  error : Option String
deriving Repr, DecidableEq

/-- The normalized response produced by `callProvider` (and by
`createErrorResponse`, which additionally carries an errorCode). -/
structure NormalizedResult where
  ok : Bool
  provider : String
  model : String
  response : String
  usage : Usage
  cost : ℚ
  latencyMs : ℚ
  error : Option String
  errorCode : Option String
deriving Repr, DecidableEq

/-- `createErrorResponse`: normalize the error and build the standard
failed-call response: ok false, empty response, zeroed usage, zero cost,
the human-readable message, and the taxonomy code. -/
def createErrorResponse (error : JsError) (provider : String) (model : Option String)
    (latencyMs : ℚ) : NormalizedResult :=
  let llmError := handleError error provider
  { ok := false
    provider := provider
    model := jsTruthyOrStr model "unknown"
    response := ""
    usage := zeroUsage
    cost := 0
    latencyMs := latencyMs
    error := some llmError.message
    errorCode := some llmError.code }

/-! ## Upstream response shapes and the fetch boundary

An upstream 2xx body is modelled by the values found (or not) at the
access paths the adapters actually probe, plus an optional usage block
whose three fields may each be absent. -/

/-- The usage block of an upstream body; each field may be absent. -/
structure JsonUsage where
  prompt_tokens : Option Nat
  completion_tokens : Option Nat
  total_tokens : Option Nat
deriving Repr, DecidableEq

/-- The usage block substituted by `json.usage || {}`. -/
def emptyJsonUsage : JsonUsage :=
  { prompt_tokens := none, completion_tokens := none, total_tokens := none }

/-- A parsed upstream response body, as the values at the optional-chain
paths the adapters probe. -/
structure LlmJson where
  choices0MessageContent : Option String
  choices0Text : Option String
  output0Content : Option String
  result : Option String
  usage : Option JsonUsage
deriving Repr, DecidableEq

/-- A body with nothing at any probed path. -/
def emptyLlmJson : LlmJson :=
  { choices0MessageContent := none, choices0Text := none, output0Content := none
    result := none, usage := none }

/-- A deterministic rendering standing in for `JSON.stringify(json)`; the
exact serialization format is immaterial to every property proved below,
only that it is a fixed function of the body. -/
def jsonStringify (j : LlmJson) : String :=
  "json(" ++ toString j.choices0MessageContent ++ "," ++ toString j.choices0Text
    ++ "," ++ toString j.output0Content ++ "," ++ toString j.result ++ ")"

/-- What the outside world did with an upstream fetch: the fetch threw
(network failure), or a response arrived with an ok flag, a status, a
body text, and (when parsed) a JSON body. -/
inductive FetchOutcome
  | threw (e : JsError)
  | resp (ok : Bool) (status : Nat) (bodyText : String) (json : LlmJson)
deriving Repr, DecidableEq

/-- The options object the adapters pass to `fetch`, restricted to the
request-shaping fields node-fetch understands here. The source never sets
a timeout or an abort signal, which the model records explicitly as
optional fields left empty. -/
structure FetchOptions where
  method : String
  headers : List (String × String)
  bodyModel : Option String
  bodyPrompt : String
  bodyProvider : Option String
  timeoutMs : Option Nat
  abortSignal : Bool
deriving Repr, DecidableEq

/-- The fetch options built by the refactored Cerebras adapter. -/
def cerebrasFetchOptions (cfg : ProviderConfig) (prompt model : String) : FetchOptions :=
  { method := "POST"
    headers := [("Authorization", "Bearer " ++ cfg.apiKey),
                ("Content-Type", "application/json")]
    bodyModel := some model
    bodyPrompt := prompt
    bodyProvider := none
    timeoutMs := none
    abortSignal := false }

/-- The fetch options built by the refactored Llama adapter. -/
def llamaFetchOptions (cfg : ProviderConfig) (prompt model : String) : FetchOptions :=
  { method := "POST"
    headers := [("Authorization", "Bearer " ++ cfg.apiKey),
                ("Content-Type", "application/json"),
                ("HTTP-Referer", "https://github.com/anglerfishlyy/llm-watch-grafana"),
                ("X-Title", "LLM Watch")]
    bodyModel := some model
    bodyPrompt := prompt
    bodyProvider := none
    timeoutMs := none
    abortSignal := false }

/-- The fetch options built by the refactored OpenRouter adapter. -/
def openrouterFetchOptions (cfg : ProviderConfig) (prompt model : String) : FetchOptions :=
  { method := "POST"
    headers := [("Authorization", "Bearer " ++ cfg.apiKey),
                ("Content-Type", "application/json"),
                ("HTTP-Referer", "https://github.com/anglerfishlyy/llm-watch-grafana"),
                ("X-Title", "LLM Watch")]
    bodyModel := some model
    bodyPrompt := prompt
    bodyProvider := none
    timeoutMs := none
    abortSignal := false }

/-- The fetch options built by the MCP gateway adapter. -/
def mcpFetchOptions (prompt : String) (provider : String) (model : Option String) :
    FetchOptions :=
  { method := "POST"
    headers := [("Content-Type", "application/json")]
    bodyModel := model
    bodyPrompt := prompt
    bodyProvider := some provider
    timeoutMs := none
    abortSignal := false }

/-! ## Completion-text extraction -/

/-- Refactored Cerebras extraction (nullish chain):
`json.choices[0].message.content ?? json.choices[0].text ?? empty`. -/
def cerebrasExtractContent (j : LlmJson) : String :=
  ((j.choices0MessageContent).orElse fun _ => j.choices0Text).getD ""

/-- Refactored Llama extraction (truthiness chain):
`choices[0].message.content || choices[0].text || output[0].content ||
result || empty string`. -/
def llamaExtractContent (j : LlmJson) : String :=
  jsTruthyOrStr
    (jsTruthyOr (jsTruthyOr (jsTruthyOr j.choices0MessageContent j.choices0Text)
      j.output0Content) j.result) ""

/-- Legacy Llama extraction (truthiness chain, different order and final
fallback): `output[0].content || choices[0].message.content ||
choices[0].text || result || JSON.stringify(json)`. -/
def legacyLlamaExtractContent (j : LlmJson) : String :=
  jsTruthyOrStr
    (jsTruthyOr (jsTruthyOr (jsTruthyOr j.output0Content j.choices0MessageContent)
      j.choices0Text) j.result) (jsonStringify j)

/-- Refactored OpenRouter extraction (truthiness chain):
`choices[0].message.content || choices[0].text || empty string`. -/
def openrouterExtractContent (j : LlmJson) : String :=
  jsTruthyOrStr (jsTruthyOr j.choices0MessageContent j.choices0Text) ""

/-- Modelled from the spec (claim C9 wording): try the known shapes in the
fixed priority order choices[0].message.content, choices[0].text,
output[0].content, result, taking the first shape that is PRESENT, and
yield the empty string when none is present. -/
def claimedExtractContent (j : LlmJson) : String :=
  (((j.choices0MessageContent).orElse fun _ => j.choices0Text).orElse
    (fun _ => (j.output0Content).orElse fun _ => j.result)).getD ""

/-- The first present and non-empty value in a list of optional strings,
or the empty string when there is none. -/
def firstTruthy : List (Option String) → String
  | [] => ""
  | none :: rest => firstTruthy rest
  | some s :: rest => if s = "" then firstTruthy rest else s

/-- Amended extraction contract: the first present and non-empty value
among the shapes in the order choices[0].message.content,
choices[0].text, output[0].content, result; the empty string otherwise. -/
def amendedExtractContent (j : LlmJson) : String :=
  firstTruthy [j.choices0MessageContent, j.choices0Text, j.output0Content, j.result]

/-! ## Provider adapters -/

/-- Substring test, via `splitOn`: the pattern occurs iff splitting on it
produces more than one piece. -/
def strContains (s pat : String) : Bool := (s.splitOn pat).length ≠ 1

instance {ε α : Type} [DecidableEq ε] [DecidableEq α] : DecidableEq (Except ε α) :=
  fun a b =>
  match a, b with
  | .ok x, .ok y =>
    if h : x = y then isTrue (by rw [h]) else isFalse (by intro hc; cases hc; exact h rfl)
  | .error x, .error y =>
    if h : x = y then isTrue (by rw [h]) else isFalse (by intro hc; cases hc; exact h rfl)
  | .ok _, .error _ => isFalse (by intro hc; cases hc)
  | .error _, .ok _ => isFalse (by intro hc; cases hc)

/-- The outcome of invoking an adapter: the value it returned or the error
it threw, together with how many times it invoked the transport (fetch). -/
structure AdapterOutcome where
  result : Except JsError RawResult
  transportCalls : Nat
deriving Repr, DecidableEq

/-- The user-friendly message rewriting the refactored adapters apply in
their catch blocks to common network failures, keyed on substrings of the
original message. -/
def rewriteNetworkMessage (apiName : String) (message : String) : String :=
  let msg := if message = "" then "Unknown error" else message
  if strContains msg "ENOTFOUND" ∨ strContains msg "getaddrinfo" then
    "Cannot reach " ++ apiName ++ " (DNS resolution failed). Check: 1) Internet connectivity 2) Docker DNS settings (add dns: [8.8.8.8] to docker-compose.yml) 3) Firewall rules. Original error: " ++ message
  else if strContains msg "ECONNREFUSED" then
    "Connection refused by " ++ apiName ++ ". The service may be down or unreachable. Original error: " ++ message
  else if strContains msg "ETIMEDOUT" then
    "Request timed out. Check internet connectivity and firewall settings. Original error: " ++ message
  else msg

/-- The catch block shared (up to provider name) by the refactored
adapters: rethrow our own typed errors, wrap anything else as a
ProviderError with the rewritten message. -/
def adapterCatch (provider apiName : String) (e : JsError) : JsError :=
  match e with
  | .llmError le =>
    if le.code = "API_KEY_MISSING" ∨ le.code = "PROVIDER_ERROR" then .llmError le
    else .llmError (ProviderError provider (rewriteNetworkMessage apiName le.message))
  | .plain _ _ msg => .llmError (ProviderError provider (rewriteNetworkMessage apiName msg))

/-- The successful-response normalization shared by the refactored
adapters, given the extracted content and the cost formula inputs. -/
def refactoredSuccess (provider model prompt content : String) (json : LlmJson)
    (costPerMillionTokens : ℚ) (latencyMs : ℚ) : RawResult :=
  let usage := json.usage.getD emptyJsonUsage
  let promptTokens := usage.prompt_tokens.getD (calculateTokens prompt)
  let completionTokens := usage.completion_tokens.getD (calculateTokens content)
  let totalTokens := usage.total_tokens.getD (promptTokens + completionTokens)
  { ok := some true
    provider := some provider
    model := some model
    response := some content
    output := none
    usage := some { prompt_tokens := promptTokens, completion_tokens := completionTokens
                    total_tokens := totalTokens }
    cost := some ((totalTokens : ℚ) / 1000000 * costPerMillionTokens)
    latencyMs := some latencyMs
    latency := none
    error := none }

/-- The refactored Cerebras adapter: API-key check before any transport
use, ProviderError on non-2xx, normalized success otherwise, catch-block
wrapping of transport failures. -/
def callCerebras (cfg : ProviderConfig) (prompt model : String)
    (transport : FetchOutcome) (latencyMs : ℚ) : AdapterOutcome :=
  if cfg.apiKey = "" then
    { result := .error (.llmError (APIKeyMissingError "cerebras")), transportCalls := 0 }
  else
    match transport with
    | .threw e =>
      { result := .error (adapterCatch "cerebras" "Cerebras API" e), transportCalls := 1 }
    | .resp ok status bodyText json =>
      if ok then
        { result := .ok (refactoredSuccess "cerebras" model prompt
            (cerebrasExtractContent json) json cfg.costPerMillionTokens latencyMs)
          transportCalls := 1 }
      else
        { result := .error (adapterCatch "cerebras" "Cerebras API"
            (.llmError (ProviderError "cerebras"
              ("API returned " ++ toString status ++ ": " ++ bodyText))))
          transportCalls := 1 }

/-- The refactored Llama adapter (OpenRouter-compatible endpoint). -/
def callLlama (cfg : ProviderConfig) (prompt model : String)
    (transport : FetchOutcome) (latencyMs : ℚ) : AdapterOutcome :=
  if cfg.apiKey = "" then
    { result := .error (.llmError (APIKeyMissingError "llama")), transportCalls := 0 }
  else
    match transport with
    | .threw e =>
      { result := .error (adapterCatch "llama" "OpenRouter API" e), transportCalls := 1 }
    | .resp ok status bodyText json =>
      if ok then
        { result := .ok (refactoredSuccess "llama" model prompt
            (llamaExtractContent json) json cfg.costPerMillionTokens latencyMs)
          transportCalls := 1 }
      else
        { result := .error (adapterCatch "llama" "OpenRouter API"
            (.llmError (ProviderError "llama"
              ("API returned " ++ toString status ++ ": " ++ bodyText))))
          transportCalls := 1 }

/-- The refactored OpenRouter adapter. -/
def callOpenRouter (cfg : ProviderConfig) (prompt model : String)
    (transport : FetchOutcome) (latencyMs : ℚ) : AdapterOutcome :=
  if cfg.apiKey = "" then
    { result := .error (.llmError (APIKeyMissingError "openrouter")), transportCalls := 0 }
  else
    match transport with
    | .threw e =>
      { result := .error (adapterCatch "openrouter" "OpenRouter API" e), transportCalls := 1 }
    | .resp ok status bodyText json =>
      if ok then
        { result := .ok (refactoredSuccess "openrouter" model prompt
            (openrouterExtractContent json) json cfg.costPerMillionTokens latencyMs)
          transportCalls := 1 }
      else
        { result := .error (adapterCatch "openrouter" "OpenRouter API"
            (.llmError (ProviderError "openrouter"
              ("API returned " ++ toString status ++ ": " ++ bodyText))))
          transportCalls := 1 }

/-- The legacy Cerebras adapter (providers/cerebras.js, first draft):
throws plain Errors, estimates both token totals independently of the
chosen prompt/completion counts, and prices at a flat 0.000001 USD per
token regardless of the configured per-provider rate. -/
def callCerebrasLegacy (apiKey prompt model : String)
    (transport : FetchOutcome) (latencyMs : ℚ) : AdapterOutcome :=
  if apiKey = "" then
    { result := .error (.plain "Error" none "Cerebras API key not configured")
      transportCalls := 0 }
  else
    match transport with
    | .threw e => { result := .error e, transportCalls := 1 }
    | .resp ok status bodyText json =>
      if ok then
        let content := cerebrasExtractContent json
        let usage := json.usage.getD emptyJsonUsage
        let estTotal := calculateTokens prompt + calculateTokens content
        { result := .ok
            { ok := some true
              provider := some "cerebras"
              model := some model
              response := some content
              output := none
              usage := some
                { prompt_tokens := usage.prompt_tokens.getD (calculateTokens prompt)
                  completion_tokens := usage.completion_tokens.getD (calculateTokens content)
                  total_tokens := usage.total_tokens.getD estTotal }
              cost := some (((usage.total_tokens.getD estTotal : Nat) : ℚ) * (1 / 1000000))
              latencyMs := some latencyMs
              latency := none
              error := none }
          transportCalls := 1 }
      else
        { result := .error (.plain "Error" none
            ("Cerebras API error " ++ toString status ++ ": " ++ bodyText
              ++ " (latencyMs=" ++ toString latencyMs ++ ")"))
          transportCalls := 1 }

/-- The legacy Llama adapter (providers/llama.js, first draft): returns a
friendly ok-false object instead of throwing when no key is set, extracts
content with the output-first truthiness chain, and prices at a flat
0.0000005 USD per token. -/
def callLlamaLegacy (apiKey prompt model : String)
    (transport : FetchOutcome) (latencyMs : ℚ) : AdapterOutcome :=
  if apiKey = "" then
    { result := .ok
        { ok := some false
          provider := some "llama"
          model := some model
          response := some "[LLAMA adapter unavailable - no LLAMA_API_KEY]"
          output := none
          usage := some
            { prompt_tokens := calculateTokens prompt
              completion_tokens := 0
              total_tokens := calculateTokens prompt }
          cost := some 0
          latencyMs := some 0
          latency := none
          error := some "no_api_key" }
      transportCalls := 0 }
  else
    match transport with
    | .threw e => { result := .error e, transportCalls := 1 }
    | .resp ok status bodyText json =>
      if ok then
        let content := legacyLlamaExtractContent json
        let usage := json.usage.getD emptyJsonUsage
        let estTotal := calculateTokens prompt + calculateTokens content
        { result := .ok
            { ok := some true
              provider := some "llama"
              model := some model
              response := some content
              output := none
              usage := some
                { prompt_tokens := usage.prompt_tokens.getD (calculateTokens prompt)
                  completion_tokens := usage.completion_tokens.getD (calculateTokens content)
                  total_tokens := usage.total_tokens.getD estTotal }
              cost := some (((usage.total_tokens.getD estTotal : Nat) : ℚ) * (1 / 2000000))
              latencyMs := some latencyMs
              latency := none
              error := none }
          transportCalls := 1 }
      else
        { result := .ok
            { ok := some false
              provider := some "llama"
              model := some model
              response := some ""
              output := none
              usage := some
                { prompt_tokens := calculateTokens prompt
                  completion_tokens := 0
                  total_tokens := calculateTokens prompt }
              cost := some 0
              latencyMs := some latencyMs
              latency := none
              error := some ("llama_api_error: " ++ toString status ++ " " ++ bodyText) }
          transportCalls := 1 }

/-! ## Provider registry and unified call interface (providers/index.js) -/

/-- The provider registry keys, in declaration order. -/
def registryNames : List String := ["cerebras", "llama", "openrouter", "mcp"]

/-- `isProviderAvailable`: registry membership. -/
def isProviderAvailable (provider : String) : Bool := registryNames.contains provider

/-- `getAvailableProviders`: the registry keys. -/
def getAvailableProviders : List String := registryNames

/-- Comma-space joined provider list, as interpolated into the
unknown-provider message. -/
def joinedProviders : String := String.intercalate ", " getAvailableProviders

/-- `callProvider`: validate the provider name and the prompt (throwing
InvalidRequestError), then run the adapter; a returned value is
normalized field by field, a thrown error is converted by
`handleError` + `createErrorResponse` into an ok-false response instead
of propagating. The adapter invocation itself is an input
(`adapterResult`), as is the surrounding wall-clock reading `elapsed`. -/
def callProvider (provider : String) (prompt : Option String) (model : Option String)
    (adapterResult : Except JsError RawResult) (elapsed : ℚ) :
    Except LLMWatchError NormalizedResult :=
  if ¬ isProviderAvailable provider then
    .error (InvalidRequestError
      ("Unknown provider: " ++ provider ++ ". Available providers: " ++ joinedProviders))
  else
    match prompt with
    | none => .error (InvalidRequestError "Prompt is required and must be a string")
    | some p =>
      if p = "" then
        .error (InvalidRequestError "Prompt is required and must be a string")
      else
        match adapterResult with
        | .ok r =>
          .ok { ok := r.ok.getD true
                provider := r.provider.getD provider
                model := (r.model.orElse fun _ => model).getD "unknown"
                response := ((r.response).orElse fun _ => r.output).getD ""
                usage := r.usage.getD zeroUsage
                cost := r.cost.getD 0
                latencyMs := ((r.latencyMs).orElse fun _ => r.latency).getD elapsed
                error := r.error
                errorCode := none }
        | .error e =>
          .ok (createErrorResponse (.llmError (handleError e provider)) provider model elapsed)

/-! ## The POST /call handlers -/

/-- `createMetricEntry` (agent/utils/metrics.js): build a metric entry
from a normalized provider response (`now` is the `Date.now()` reading at
entry creation). -/
def createMetricEntry (result : NormalizedResult) (provider : String)
    (model : Option String) (latencyMs : ℚ) (now : Nat) : MetricEntry :=
  { timestamp := now
    provider := jsTruthyOrStr (some result.provider) provider
    model := jsTruthyOrStr (some result.model) (jsTruthyOrStr model "unknown")
    latency := latencyMs
    promptTokens := result.usage.prompt_tokens
    completionTokens := result.usage.completion_tokens
    totalTokens := result.usage.total_tokens
    cost := result.cost
    error := result.error }

/-- What the refactored /call handler produced: the updated store, the
HTTP status, and the response-body fields (the success-path body carries
no error or errorCode field at all, modelled as `none`). -/
structure HandlerResult where
  store : MetricsStore
  status : Nat
  bodyOk : Bool
  bodyError : Option String
  bodyErrorCode : Option String
  entry : MetricEntry
deriving Repr, DecidableEq

/-- The refactored POST /call handler (agent/server.js, refactored
draft): destructure the body with defaults, run `callProvider`; on a
returned result, append a metric entry and reply 200; on a thrown error,
append a zeroed error entry and reply with the status of the typed
error. -/
def handleCall (store : MetricsStore) (bodyProvider bodyPrompt bodyModel : Option String)
    (adapterResult : Except JsError RawResult) (elapsed : ℚ) (now : Nat) : HandlerResult :=
  let provider := bodyProvider.getD "cerebras"
  let prompt := bodyPrompt.getD ""
  match callProvider provider (some prompt) bodyModel adapterResult elapsed with
  | .ok result =>
    let latencyMs := result.latencyMs
    let entry := createMetricEntry result provider bodyModel latencyMs now
    { store := store.add entry
      status := 200
      bodyOk := result.ok
      bodyError := none
      bodyErrorCode := none
      entry := entry }
  | .error err =>
    let errorEntry : MetricEntry :=
      { timestamp := now
        provider := provider
        model := bodyModel.getD "unknown"
        latency := elapsed
        promptTokens := 0
        completionTokens := 0
        totalTokens := 0
        cost := 0
        error := some err.message }
    { store := store.add errorEntry
      status := err.statusCode
      bodyOk := false
      bodyError := some err.message
      bodyErrorCode := some (if err.code = "" then "UNKNOWN_ERROR" else err.code)
      entry := errorEntry }

/-- A metric entry of the legacy server, whose catch branch stores
`model: model || null` (a nullable model). -/
structure LegacyEntry where
  timestamp : Nat
  provider : String
  model : Option String
  latency : ℚ
  promptTokens : Nat
  completionTokens : Nat
  totalTokens : Nat
  cost : ℚ
  error : Option String
deriving Repr, DecidableEq

/-- The legacy in-memory push with its hard-coded cap of 500. -/
def legacyPush (metrics : List LegacyEntry) (m : LegacyEntry) : List LegacyEntry :=
  let pushed := metrics ++ [m]
  if pushed.length > 500 then pushed.drop 1 else pushed

/-- What the legacy /call handler produced. Its response bodies carry no
errorCode field on any path. -/
structure LegacyHandlerResult where
  metrics : List LegacyEntry
  status : Nat
  bodyOk : Bool
  bodyError : Option String
  bodyErrorCode : Option String
  entry : LegacyEntry
deriving Repr, DecidableEq

/-- The legacy POST /call handler (agent/server.js, first draft, the one
that routes through `callProvider`): on a returned result it appends an
entry and replies 200; on any thrown error it appends a zeroed entry and
replies 500 with a body of only ok, metrics and error. -/
def handleCallLegacy (metrics : List LegacyEntry)
    (bodyProvider bodyPrompt bodyModel : Option String)
    (adapterResult : Except JsError RawResult) (elapsed : ℚ) (now : Nat) :
    LegacyHandlerResult :=
  let provider := bodyProvider.getD "cerebras"
  let prompt := bodyPrompt.getD ""
  match callProvider provider (some prompt) bodyModel adapterResult elapsed with
  | .ok result =>
    let latencyMs := result.latencyMs
    let entry : LegacyEntry :=
      { timestamp := now
        provider := jsTruthyOrStr (some result.provider) provider
        model := some (jsTruthyOrStr (some result.model) (jsTruthyOrStr bodyModel "unknown"))
        latency := latencyMs
        promptTokens := result.usage.prompt_tokens
        completionTokens := result.usage.completion_tokens
        totalTokens := result.usage.total_tokens
        cost := result.cost
        error := result.error }
    { metrics := legacyPush metrics entry
      status := 200
      bodyOk := result.ok
      bodyError := none
      bodyErrorCode := none
      entry := entry }
  | .error err =>
    let entry : LegacyEntry :=
      { timestamp := now
        provider := provider
        model := bodyModel
        latency := elapsed
        promptTokens := 0
        completionTokens := 0
        totalTokens := 0
        cost := 0
        error := some (if err.message = "" then "unknown_error" else err.message) }
    { metrics := legacyPush metrics entry
      status := 500
      bodyOk := false
      bodyError := entry.error
      bodyErrorCode := none
      entry := entry }

/-! ## Claim theorems -/

/-- C5: for every requested window size, `getAggregates` on a store that
holds zero records returns zeroed aggregates (avgLatency 0, avgCost 0,
errorRate 0); in this total model it can neither produce NaN nor throw. -/
theorem getAggregates_empty_store (s : MetricsStore) (h : s.metrics = []) (count : Nat) :
    s.getAggregates count
      = { avgLatency := 0, avgCost := 0, errorRate := 0, totalRequests := 0 } := by
  simp [MetricsStore.getAggregates, MetricsStore.getLast, h]

theorem getAggregates_empty_store_witness :
    (emptyStore 500).metrics = []
    ∧ (emptyStore 500).getAggregates 10
        = { avgLatency := 0, avgCost := 0, errorRate := 0, totalRequests := 0 } :=
  ⟨rfl, getAggregates_empty_store (emptyStore 500) rfl 10⟩

/-- C2 (code bug): no adapter passes the configured per-provider timeout
(or any abort signal) to its upstream fetch, for any configuration - the
`timeout` field of the provider configuration is parsed but never used,
so an unresponsive upstream is awaited indefinitely instead of being cut
off after `cfg.timeout` (default 30000) milliseconds with a TIMEOUT
error. -/
theorem adapters_fetch_without_timeout (cfg : ProviderConfig)
    (prompt model provider : String) (m : Option String) :
    (cerebrasFetchOptions cfg prompt model).timeoutMs = none
    ∧ (cerebrasFetchOptions cfg prompt model).abortSignal = false
    ∧ (llamaFetchOptions cfg prompt model).timeoutMs = none
    ∧ (llamaFetchOptions cfg prompt model).abortSignal = false
    ∧ (openrouterFetchOptions cfg prompt model).timeoutMs = none
    ∧ (openrouterFetchOptions cfg prompt model).abortSignal = false
    ∧ (mcpFetchOptions prompt provider m).timeoutMs = none
    ∧ (mcpFetchOptions prompt provider m).abortSignal = false :=
  ⟨rfl, rfl, rfl, rfl, rfl, rfl, rfl, rfl⟩

/-- C10: with a registered provider and a non-empty string prompt,
`callProvider` never propagates an adapter-thrown error: it returns an
ok-false normalized result with a non-null error message, zeroed usage
and zero cost; and `callProvider` only ever throws when pre-call
validation fails (unknown provider, or missing / empty prompt). -/
theorem callProvider_error_containment :
    (∀ (provider p : String) (model : Option String) (e : JsError) (elapsed : ℚ),
      isProviderAvailable provider = true → p ≠ "" →
      ∃ r, callProvider provider (some p) model (Except.error e) elapsed = Except.ok r
        ∧ r.ok = false ∧ r.error ≠ none ∧ r.usage = zeroUsage ∧ r.cost = 0)
    ∧ (∀ (provider : String) (prompt model : Option String)
        (ar : Except JsError RawResult) (elapsed : ℚ) (err : LLMWatchError),
        callProvider provider prompt model ar elapsed = Except.error err →
        isProviderAvailable provider = false ∨ prompt = none ∨ prompt = some "") := by
  constructor
  · intro provider p model e elapsed hprov hp
    refine ⟨createErrorResponse (.llmError (handleError e provider)) provider model elapsed,
      ?_, rfl, ?_, rfl, rfl⟩
    · simp [callProvider, hprov, hp]
    · simp [createErrorResponse]
  · intro provider prompt model ar elapsed err hcall
    by_cases hprov : isProviderAvailable provider
    · right
      match prompt with
      | none => exact Or.inl rfl
      | some p =>
        right
        by_cases hp : p = ""
        · rw [hp]
        · exfalso
          rcases ar with r | e <;> simp [callProvider, hprov, hp] at hcall
    · left
      simpa using hprov

theorem callProvider_error_containment_witness :
    ∃ r, callProvider "cerebras" (some "hi") none
        (Except.error (JsError.plain "TypeError" none "boom")) 0 = Except.ok r
      ∧ r.ok = false ∧ r.error ≠ none ∧ r.usage = zeroUsage ∧ r.cost = 0 :=
  callProvider_error_containment.1 "cerebras" "hi" none
    (JsError.plain "TypeError" none "boom") 0 (by decide) (by decide)

/-- C7: with no Cerebras API key configured, the refactored Cerebras
adapter performs zero transport invocations and throws
APIKeyMissingError, and a POST /call for provider cerebras with a
non-empty prompt then yields (through `callProvider`) an ok-false result
whose errorCode is API_KEY_MISSING. -/
theorem cerebras_missing_key_no_fetch (cfg : ProviderConfig) (prompt model : String)
    (transport : FetchOutcome) (latencyMs elapsed : ℚ) (p : String) (m : Option String)
    (hkey : cfg.apiKey = "") (hp : p ≠ "") :
    (callCerebras cfg prompt model transport latencyMs).transportCalls = 0
    ∧ (callCerebras cfg prompt model transport latencyMs).result
        = Except.error (JsError.llmError (APIKeyMissingError "cerebras"))
    ∧ ∃ res, callProvider "cerebras" (some p) m
        (Except.error (JsError.llmError (APIKeyMissingError "cerebras"))) elapsed
          = Except.ok res
        ∧ res.errorCode = some "API_KEY_MISSING" ∧ res.ok = false ∧ res.error ≠ none := by
  refine ⟨by simp [callCerebras, hkey], by simp [callCerebras, hkey], ?_⟩
  refine ⟨createErrorResponse
    (.llmError (handleError (.llmError (APIKeyMissingError "cerebras")) "cerebras"))
    "cerebras" m elapsed, ?_, rfl, rfl, ?_⟩
  · simp [callProvider, hp]
    decide
  · simp [createErrorResponse]

theorem cerebras_missing_key_no_fetch_witness :
    (callCerebras defaultCerebrasConfig "hi" "llama3.1-8b"
        (FetchOutcome.resp true 200 "" emptyLlmJson) 5).transportCalls = 0
    ∧ (callCerebras defaultCerebrasConfig "hi" "llama3.1-8b"
        (FetchOutcome.resp true 200 "" emptyLlmJson) 5).result
        = Except.error (JsError.llmError (APIKeyMissingError "cerebras"))
    ∧ ∃ res, callProvider "cerebras" (some "hi") none
        (Except.error (JsError.llmError (APIKeyMissingError "cerebras"))) 5
          = Except.ok res
        ∧ res.errorCode = some "API_KEY_MISSING" ∧ res.ok = false ∧ res.error ≠ none :=
  cerebras_missing_key_no_fetch defaultCerebrasConfig "hi" "llama3.1-8b"
    (FetchOutcome.resp true 200 "" emptyLlmJson) 5 5 "hi" none rfl (by decide)

theorem refactoredSuccess_totalTokens (provider model prompt content : String)
    (j : LlmJson) (rate lat : ℚ) :
    ∀ u, (refactoredSuccess provider model prompt content j rate lat).usage = some u →
      ((j.usage.getD emptyJsonUsage).total_tokens = none →
        u.total_tokens = u.prompt_tokens + u.completion_tokens)
      ∧ ∀ t, (j.usage.getD emptyJsonUsage).total_tokens = some t → u.total_tokens = t := by
  intro u hu
  simp only [refactoredSuccess, Option.some.injEq] at hu
  subst hu
  constructor
  · intro hnone
    simp [hnone]
  · intro t ht
    simp [ht]

/-- C8: on an upstream 2xx response, the refactored Cerebras and Llama
adapters set totalTokens to promptTokens + completionTokens, except when
the upstream usage block reports a total_tokens value, which is then
taken verbatim (even if it disagrees with the sum). -/
theorem totalTokens_upstream_wins (cfg : ProviderConfig) (prompt model text : String)
    (status : Nat) (j : LlmJson) (lat : ℚ) :
    (∀ r u, (callCerebras cfg prompt model (FetchOutcome.resp true status text j) lat).result
        = Except.ok r → r.usage = some u →
      ((j.usage.getD emptyJsonUsage).total_tokens = none →
        u.total_tokens = u.prompt_tokens + u.completion_tokens)
      ∧ ∀ t, (j.usage.getD emptyJsonUsage).total_tokens = some t → u.total_tokens = t)
    ∧ (∀ r u, (callLlama cfg prompt model (FetchOutcome.resp true status text j) lat).result
        = Except.ok r → r.usage = some u →
      ((j.usage.getD emptyJsonUsage).total_tokens = none →
        u.total_tokens = u.prompt_tokens + u.completion_tokens)
      ∧ ∀ t, (j.usage.getD emptyJsonUsage).total_tokens = some t → u.total_tokens = t) := by
  constructor
  · intro r u hr hu
    by_cases hkey : cfg.apiKey = ""
    · simp [callCerebras, hkey] at hr
    · simp only [callCerebras, hkey, if_false, if_true, if_neg, ite_false,
        ite_true] at hr
      injection hr with hr2
      rw [← hr2] at hu
      exact refactoredSuccess_totalTokens _ _ _ _ _ _ _ u hu
  · intro r u hr hu
    by_cases hkey : cfg.apiKey = ""
    · simp [callLlama, hkey] at hr
    · simp only [callLlama, hkey, if_false, if_true, if_neg, ite_false,
        ite_true] at hr
      injection hr with hr2
      rw [← hr2] at hu
      exact refactoredSuccess_totalTokens _ _ _ _ _ _ _ u hu

/-- A Cerebras-style configuration with a key set, used to evaluate the
adapters at concrete inputs. -/
def cfgWithKey : ProviderConfig :=
  { apiKey := "k"
    apiUrl := "https://api.cerebras.ai/v1/chat/completions"
    timeout := 30000
    costPerMillionTokens := 1 / 10 }

/-- An upstream body whose usage block reports prompt 1, completion 2 and
the disagreeing total 999. -/
def jsonReportedTotal : LlmJson :=
  { emptyLlmJson with
    usage := some { prompt_tokens := some 1, completion_tokens := some 2
                    total_tokens := some 999 } }

theorem totalTokens_upstream_wins_witness :
    (Usage.total_tokens
      { prompt_tokens := 1, completion_tokens := 2, total_tokens := 999 }) = 999 :=
  ((totalTokens_upstream_wins cfgWithKey "hi" "m" "" 200 jsonReportedTotal 5).1
    (refactoredSuccess "cerebras" "m" "hi" (cerebrasExtractContent jsonReportedTotal)
      jsonReportedTotal (1 / 10) 5)
    { prompt_tokens := 1, completion_tokens := 2, total_tokens := 999 }
    rfl rfl).2 999 rfl

/-- An upstream body carrying an empty string at
choices[0].message.content together with a non-empty choices[0].text. -/
def jsonEmptyFirstShape : LlmJson :=
  { emptyLlmJson with choices0MessageContent := some "", choices0Text := some "x" }

/-- An upstream body carrying text at both choices[0].message.content and
output[0].content. -/
def jsonTwoShapes : LlmJson :=
  { emptyLlmJson with choices0MessageContent := some "a", output0Content := some "b" }

/-- C9 counterexample: the extraction order of the claim fails on the
code. The legacy Llama adapter probes output[0].content FIRST (returning
b where the claimed order returns a), and the refactored Llama adapter
skips a present-but-empty first shape because it chains with JavaScript
truthiness (returning x where the claimed present-first order returns the
empty string). -/
theorem extraction_order_counterexample :
    legacyLlamaExtractContent jsonTwoShapes = "b"
    ∧ claimedExtractContent jsonTwoShapes = "a"
    ∧ legacyLlamaExtractContent jsonTwoShapes ≠ claimedExtractContent jsonTwoShapes
    ∧ llamaExtractContent jsonEmptyFirstShape = "x"
    ∧ claimedExtractContent jsonEmptyFirstShape = ""
    ∧ llamaExtractContent jsonEmptyFirstShape ≠ claimedExtractContent jsonEmptyFirstShape := by
  refine ⟨rfl, rfl, ?_, rfl, rfl, ?_⟩ <;> decide

/-- C9 amended: the refactored Llama adapter extracts the completion text
by trying the shapes in the fixed priority order
choices[0].message.content, choices[0].text, output[0].content, result,
taking the first value that is present AND non-empty, and yields the
empty string when every shape is absent or empty. -/
theorem llama_extraction_amended (j : LlmJson) :
    llamaExtractContent j = amendedExtractContent j := by
  rcases j with ⟨a, b, c, d, u⟩
  cases a <;> cases b <;> cases c <;> cases d <;>
    simp [llamaExtractContent, amendedExtractContent, firstTruthy,
      jsTruthyOr, jsTruthyOrStr] <;>
    split_ifs <;> simp_all [firstTruthy]

/-- An upstream body whose usage block reports prompt 40, completion 60,
total 100. -/
def jsonTotal100 : LlmJson :=
  { emptyLlmJson with
    usage := some { prompt_tokens := some 40, completion_tokens := some 60
                    total_tokens := some 100 } }

/-- C4 counterexample: the legacy Cerebras adapter prices 100 total
tokens at a flat 0.000001 USD per token, giving 1/10000 USD, while the
claimed formula with the Cerebras static rate (0.10 USD per million)
gives 1/100000 USD. -/
theorem legacy_cost_ignores_provider_rate :
    ∃ r, (callCerebrasLegacy "k" "hi" "llama3.1-8b"
        (FetchOutcome.resp true 200 "" jsonTotal100) 5).result = Except.ok r
      ∧ r.cost = some (1 / 10000)
      ∧ (100 : ℚ) / 1000000 * defaultCerebrasConfig.costPerMillionTokens = 1 / 100000
      ∧ r.cost ≠ some ((100 : ℚ) / 1000000 * defaultCerebrasConfig.costPerMillionTokens) := by
  refine ⟨_, rfl, ?_, ?_, ?_⟩
  · simp only [jsonTotal100, emptyLlmJson, Option.getD_some, Option.some.injEq]
    norm_num
  · norm_num [defaultCerebrasConfig]
  · simp only [jsonTotal100, emptyLlmJson, defaultCerebrasConfig, Option.getD_some,
      ne_eq, Option.some.injEq]
    norm_num

/-- The cost contract of the refactored adapters: every returned true-ok
result with a usage block prices totalTokens at rate/1e6 per token. -/
def costMatchesPerMillionRate (out : AdapterOutcome) (rate : ℚ) : Prop :=
  ∀ r u, out.result = Except.ok r → r.ok = some true → r.usage = some u →
    r.cost = some ((u.total_tokens : ℚ) / 1000000 * rate)

/-- The cost behavior of the legacy adapters: every returned true-ok
result with a usage block prices totalTokens at a flat per-token rate. -/
def costIsFlatPerToken (out : AdapterOutcome) (perToken : ℚ) : Prop :=
  ∀ r u, out.result = Except.ok r → r.ok = some true → r.usage = some u →
    r.cost = some ((u.total_tokens : ℚ) * perToken)

theorem callCerebras_ok_cost (cfg : ProviderConfig) (prompt model : String)
    (transport : FetchOutcome) (lat : ℚ) (r : RawResult)
    (hr : (callCerebras cfg prompt model transport lat).result = Except.ok r) :
    ∃ u, r.usage = some u
      ∧ r.cost = some ((u.total_tokens : ℚ) / 1000000 * cfg.costPerMillionTokens) := by
  by_cases hkey : cfg.apiKey = ""
  · simp [callCerebras, hkey] at hr
  · cases transport with
    | threw e => simp [callCerebras, hkey] at hr
    | resp ok status text j =>
      cases ok with
      | false => simp [callCerebras, hkey] at hr
      | true =>
        simp only [callCerebras, hkey, if_false, if_true, if_neg, ite_false,
          ite_true] at hr
        injection hr with hr2
        subst hr2
        exact ⟨_, rfl, rfl⟩

theorem callLlama_ok_cost (cfg : ProviderConfig) (prompt model : String)
    (transport : FetchOutcome) (lat : ℚ) (r : RawResult)
    (hr : (callLlama cfg prompt model transport lat).result = Except.ok r) :
    ∃ u, r.usage = some u
      ∧ r.cost = some ((u.total_tokens : ℚ) / 1000000 * cfg.costPerMillionTokens) := by
  by_cases hkey : cfg.apiKey = ""
  · simp [callLlama, hkey] at hr
  · cases transport with
    | threw e => simp [callLlama, hkey] at hr
    | resp ok status text j =>
      cases ok with
      | false => simp [callLlama, hkey] at hr
      | true =>
        simp only [callLlama, hkey, if_false, if_true, if_neg, ite_false,
          ite_true] at hr
        injection hr with hr2
        subst hr2
        exact ⟨_, rfl, rfl⟩

theorem callOpenRouter_ok_cost (cfg : ProviderConfig) (prompt model : String)
    (transport : FetchOutcome) (lat : ℚ) (r : RawResult)
    (hr : (callOpenRouter cfg prompt model transport lat).result = Except.ok r) :
    ∃ u, r.usage = some u
      ∧ r.cost = some ((u.total_tokens : ℚ) / 1000000 * cfg.costPerMillionTokens) := by
  by_cases hkey : cfg.apiKey = ""
  · simp [callOpenRouter, hkey] at hr
  · cases transport with
    | threw e => simp [callOpenRouter, hkey] at hr
    | resp ok status text j =>
      cases ok with
      | false => simp [callOpenRouter, hkey] at hr
      | true =>
        simp only [callOpenRouter, hkey, if_false, if_true, if_neg, ite_false,
          ite_true] at hr
        injection hr with hr2
        subst hr2
        exact ⟨_, rfl, rfl⟩

theorem callCerebrasLegacy_ok_cost (key prompt model : String)
    (transport : FetchOutcome) (lat : ℚ) (r : RawResult)
    (hr : (callCerebrasLegacy key prompt model transport lat).result = Except.ok r) :
    ∃ u, r.usage = some u ∧ r.cost = some ((u.total_tokens : ℚ) * (1 / 1000000)) := by
  by_cases hkey : key = ""
  · simp [callCerebrasLegacy, hkey] at hr
  · cases transport with
    | threw e => simp [callCerebrasLegacy, hkey] at hr
    | resp ok status text j =>
      cases ok with
      | false => simp [callCerebrasLegacy, hkey] at hr
      | true =>
        simp only [callCerebrasLegacy, hkey, if_false, if_true, if_neg, ite_false,
          ite_true] at hr
        injection hr with hr2
        subst hr2
        exact ⟨_, rfl, rfl⟩

theorem callLlamaLegacy_ok_cost (key prompt model : String)
    (transport : FetchOutcome) (lat : ℚ) (r : RawResult)
    (hr : (callLlamaLegacy key prompt model transport lat).result = Except.ok r)
    (hok : r.ok = some true) :
    ∃ u, r.usage = some u ∧ r.cost = some ((u.total_tokens : ℚ) * (1 / 2000000)) := by
  by_cases hkey : key = ""
  · simp only [callLlamaLegacy, hkey, if_true, ite_true] at hr
    injection hr with hr2
    subst hr2
    simp at hok
  · cases transport with
    | threw e => simp [callLlamaLegacy, hkey] at hr
    | resp ok status text j =>
      cases ok with
      | false =>
        simp only [callLlamaLegacy, hkey, if_false, if_true, if_neg, ite_false,
          ite_true] at hr
        injection hr with hr2
        subst hr2
        simp at hok
      | true =>
        simp only [callLlamaLegacy, hkey, if_false, if_true, if_neg, ite_false,
          ite_true] at hr
        injection hr with hr2
        subst hr2
        exact ⟨_, rfl, rfl⟩

theorem callLlamaLegacy_cost_nonneg (key prompt model : String)
    (transport : FetchOutcome) (lat : ℚ) (r : RawResult) (c : ℚ)
    (hr : (callLlamaLegacy key prompt model transport lat).result = Except.ok r)
    (hc : r.cost = some c) : 0 ≤ c := by
  by_cases hkey : key = ""
  · simp only [callLlamaLegacy, hkey, if_true, ite_true] at hr
    injection hr with hr2
    subst hr2
    simp only [Option.some.injEq] at hc
    exact le_of_eq hc
  · cases transport with
    | threw e => simp [callLlamaLegacy, hkey] at hr
    | resp ok status text j =>
      cases ok with
      | false =>
        simp only [callLlamaLegacy, hkey, if_false, if_true, if_neg, ite_false,
          ite_true] at hr
        injection hr with hr2
        subst hr2
        simp only [Option.some.injEq] at hc
        exact le_of_eq hc
      | true =>
        simp only [callLlamaLegacy, hkey, if_false, if_true, if_neg, ite_false,
          ite_true] at hr
        injection hr with hr2
        subst hr2
        simp only [Option.some.injEq] at hc
        rw [← hc]
        positivity

/-- C4 amended: the refactored Cerebras, Llama and OpenRouter adapters
price every successful call at totalTokens / 1e6 times the configured
per-provider costPerMillionTokens (non-negative whenever the configured
rate is); the legacy Cerebras and Llama adapters instead use flat
hard-coded per-token rates (1e-6 resp. 5e-7 USD per token, non-negative
unconditionally), independent of the configured per-provider rate. -/
theorem adapter_cost_formulas (cfg : ProviderConfig) (key prompt model : String)
    (transport : FetchOutcome) (lat : ℚ) :
    costMatchesPerMillionRate (callCerebras cfg prompt model transport lat)
      cfg.costPerMillionTokens
    ∧ costMatchesPerMillionRate (callLlama cfg prompt model transport lat)
      cfg.costPerMillionTokens
    ∧ costMatchesPerMillionRate (callOpenRouter cfg prompt model transport lat)
      cfg.costPerMillionTokens
    ∧ costIsFlatPerToken (callCerebrasLegacy key prompt model transport lat) (1 / 1000000)
    ∧ costIsFlatPerToken (callLlamaLegacy key prompt model transport lat) (1 / 2000000)
    ∧ (0 ≤ cfg.costPerMillionTokens →
        ∀ r c, (callCerebras cfg prompt model transport lat).result = Except.ok r →
          r.cost = some c → 0 ≤ c)
    ∧ (0 ≤ cfg.costPerMillionTokens →
        ∀ r c, (callLlama cfg prompt model transport lat).result = Except.ok r →
          r.cost = some c → 0 ≤ c)
    ∧ (0 ≤ cfg.costPerMillionTokens →
        ∀ r c, (callOpenRouter cfg prompt model transport lat).result = Except.ok r →
          r.cost = some c → 0 ≤ c)
    ∧ (∀ r c, (callCerebrasLegacy key prompt model transport lat).result = Except.ok r →
        r.cost = some c → 0 ≤ c)
    ∧ (∀ r c, (callLlamaLegacy key prompt model transport lat).result = Except.ok r →
        r.cost = some c → 0 ≤ c) := by
  refine ⟨?_, ?_, ?_, ?_, ?_, ?_, ?_, ?_, ?_, ?_⟩
  · intro r u hr _ hu
    obtain ⟨u2, hu2, hc2⟩ := callCerebras_ok_cost cfg prompt model transport lat r hr
    rw [hu] at hu2
    injection hu2 with he
    rw [hc2, he]
  · intro r u hr _ hu
    obtain ⟨u2, hu2, hc2⟩ := callLlama_ok_cost cfg prompt model transport lat r hr
    rw [hu] at hu2
    injection hu2 with he
    rw [hc2, he]
  · intro r u hr _ hu
    obtain ⟨u2, hu2, hc2⟩ := callOpenRouter_ok_cost cfg prompt model transport lat r hr
    rw [hu] at hu2
    injection hu2 with he
    rw [hc2, he]
  · intro r u hr _ hu
    obtain ⟨u2, hu2, hc2⟩ := callCerebrasLegacy_ok_cost key prompt model transport lat r hr
    rw [hu] at hu2
    injection hu2 with he
    rw [hc2, he]
  · intro r u hr hok hu
    obtain ⟨u2, hu2, hc2⟩ := callLlamaLegacy_ok_cost key prompt model transport lat r hr hok
    rw [hu] at hu2
    injection hu2 with he
    rw [hc2, he]
  · intro hrate r c hr hc
    obtain ⟨u2, _, hc2⟩ := callCerebras_ok_cost cfg prompt model transport lat r hr
    rw [hc2] at hc
    injection hc with he
    rw [← he]
    positivity
  · intro hrate r c hr hc
    obtain ⟨u2, _, hc2⟩ := callLlama_ok_cost cfg prompt model transport lat r hr
    rw [hc2] at hc
    injection hc with he
    rw [← he]
    positivity
  · intro hrate r c hr hc
    obtain ⟨u2, _, hc2⟩ := callOpenRouter_ok_cost cfg prompt model transport lat r hr
    rw [hc2] at hc
    injection hc with he
    rw [← he]
    positivity
  · intro r c hr hc
    obtain ⟨u2, _, hc2⟩ := callCerebrasLegacy_ok_cost key prompt model transport lat r hr
    rw [hc2] at hc
    injection hc with he
    rw [← he]
    positivity
  · intro r c hr hc
    exact callLlamaLegacy_cost_nonneg key prompt model transport lat r c hr hc

theorem adapter_cost_formulas_witness :
    (refactoredSuccess "cerebras" "m" "hi" (cerebrasExtractContent jsonTotal100)
      jsonTotal100 (1 / 10) 5).cost = some ((100 : ℚ) / 1000000 * (1 / 10)) :=
  (adapter_cost_formulas cfgWithKey "k" "hi" "m"
    (FetchOutcome.resp true 200 "" jsonTotal100) 5).1
    (refactoredSuccess "cerebras" "m" "hi" (cerebrasExtractContent jsonTotal100)
      jsonTotal100 (1 / 10) 5)
    { prompt_tokens := 40, completion_tokens := 60, total_tokens := 100 }
    rfl rfl rfl

/-- C3 counterexample: an adapter-level failure (missing Cerebras API
key, taxonomy code API_KEY_MISSING with status 500) reaches the
refactored /call handler as a returned ok-false result, so the handler
takes its success path: HTTP status 200 (not the taxonomy status) and a
response body carrying neither error nor errorCode, even though the call
failed and the stored entry records the error. -/
theorem provider_failure_gets_200_without_errorCode :
    (handleCall (emptyStore 500) (some "cerebras") (some "hi") none
      (Except.error (JsError.llmError (APIKeyMissingError "cerebras"))) 5 0).status = 200
    ∧ (handleCall (emptyStore 500) (some "cerebras") (some "hi") none
      (Except.error (JsError.llmError (APIKeyMissingError "cerebras"))) 5 0).bodyErrorCode
        = none
    ∧ (handleCall (emptyStore 500) (some "cerebras") (some "hi") none
      (Except.error (JsError.llmError (APIKeyMissingError "cerebras"))) 5 0).bodyError
        = none
    ∧ (handleCall (emptyStore 500) (some "cerebras") (some "hi") none
      (Except.error (JsError.llmError (APIKeyMissingError "cerebras"))) 5 0).bodyOk = false
    ∧ (handleCall (emptyStore 500) (some "cerebras") (some "hi") none
      (Except.error (JsError.llmError (APIKeyMissingError "cerebras"))) 5 0).entry.error
        ≠ none := by
  refine ⟨rfl, rfl, rfl, rfl, ?_⟩
  intro h
  simp [handleCall, callProvider, createMetricEntry, createErrorResponse,
    isProviderAvailable, registryNames] at h

/-- C3 amended: every /call request appends exactly one metric entry.
Validation errors thrown out of callProvider (unknown provider, missing
or empty prompt) are answered with the taxonomy status and a body with
ok false, the message and the errorCode, the entry recording the
message; but adapter-level failures come back as returned ok-false
results and are answered on the success path, HTTP 200 with neither
error nor errorCode in the body, the failure being visible only in the
stored entry (and in the ok flag). -/
theorem call_error_propagation_policy (store : MetricsStore)
    (bodyProvider bodyPrompt bodyModel : Option String)
    (ar : Except JsError RawResult) (elapsed : ℚ) (now : Nat) :
    (handleCall store bodyProvider bodyPrompt bodyModel ar elapsed now).store
      = store.add (handleCall store bodyProvider bodyPrompt bodyModel ar elapsed now).entry
    ∧ (∀ err, callProvider (bodyProvider.getD "cerebras") (some (bodyPrompt.getD ""))
          bodyModel ar elapsed = Except.error err →
        (handleCall store bodyProvider bodyPrompt bodyModel ar elapsed now).status
            = err.statusCode
        ∧ (handleCall store bodyProvider bodyPrompt bodyModel ar elapsed now).bodyOk = false
        ∧ (handleCall store bodyProvider bodyPrompt bodyModel ar elapsed now).bodyError
            = some err.message
        ∧ (handleCall store bodyProvider bodyPrompt bodyModel ar elapsed now).bodyErrorCode
            = some (if err.code = "" then "UNKNOWN_ERROR" else err.code)
        ∧ (handleCall store bodyProvider bodyPrompt bodyModel ar elapsed now).entry.error
            = some err.message)
    ∧ (∀ r, callProvider (bodyProvider.getD "cerebras") (some (bodyPrompt.getD ""))
          bodyModel ar elapsed = Except.ok r →
        (handleCall store bodyProvider bodyPrompt bodyModel ar elapsed now).status = 200
        ∧ (handleCall store bodyProvider bodyPrompt bodyModel ar elapsed now).bodyErrorCode
            = none
        ∧ (handleCall store bodyProvider bodyPrompt bodyModel ar elapsed now).bodyError
            = none
        ∧ (handleCall store bodyProvider bodyPrompt bodyModel ar elapsed now).bodyOk = r.ok
        ∧ (handleCall store bodyProvider bodyPrompt bodyModel ar elapsed now).entry.error
            = r.error) := by
  cases hc : callProvider (bodyProvider.getD "cerebras") (some (bodyPrompt.getD ""))
      bodyModel ar elapsed with
  | ok r =>
    refine ⟨?_, ?_, ?_⟩
    · simp [handleCall, hc]
    · intro err herr
      cases herr
    · intro r2 hr2
      injection hr2 with he
      subst he
      simp [handleCall, hc, createMetricEntry]
  | error err =>
    refine ⟨?_, ?_, ?_⟩
    · simp [handleCall, hc]
    · intro err2 herr
      injection herr with he
      subst he
      simp [handleCall, hc]
    · intro r2 hr2
      cases hr2

theorem call_error_propagation_policy_witness :
    (handleCall (emptyStore 500) (some "bogus") (some "hi") none
      (Except.error (JsError.plain "Error" none "x")) 0 0).status = 400 := by
  have h := call_error_propagation_policy (emptyStore 500) (some "bogus") (some "hi")
    none (Except.error (JsError.plain "Error" none "x")) 0 0
  have hc : callProvider ((some "bogus").getD "cerebras") (some ((some "hi").getD ""))
      none (Except.error (JsError.plain "Error" none "x")) 0
      = Except.error (InvalidRequestError
          ("Unknown provider: bogus. Available providers: " ++ joinedProviders)) := rfl
  exact (h.2.1 _ hc).1

/-- C6 counterexample: on the legacy server, a POST /call naming an
unknown provider is answered with HTTP 500 and a body with no errorCode
field at all, not with HTTP 400 and INVALID_REQUEST (the error entry
with zero totalTokens is still appended). -/
theorem legacy_unknown_provider_500_without_errorCode :
    (handleCallLegacy [] (some "not-a-provider") (some "hi") none
      (Except.error (JsError.plain "Error" none "x")) 0 0).status = 500
    ∧ (handleCallLegacy [] (some "not-a-provider") (some "hi") none
      (Except.error (JsError.plain "Error" none "x")) 0 0).bodyErrorCode = none
    ∧ (handleCallLegacy [] (some "not-a-provider") (some "hi") none
      (Except.error (JsError.plain "Error" none "x")) 0 0).entry.totalTokens = 0
    ∧ (handleCallLegacy [] (some "not-a-provider") (some "hi") none
      (Except.error (JsError.plain "Error" none "x")) 0 0).entry.error ≠ none
    ∧ (handleCallLegacy [] (some "not-a-provider") (some "hi") none
      (Except.error (JsError.plain "Error" none "x")) 0 0).metrics.length = 1 := by
  refine ⟨rfl, rfl, rfl, ?_, rfl⟩
  intro h
  simp [handleCallLegacy, callProvider, isProviderAvailable, registryNames,
    legacyPush] at h

/-- C6 amended: a POST /call naming a provider absent from the registry
is answered by the refactored server with HTTP 400, errorCode
INVALID_REQUEST, and exactly one appended error entry with totalTokens
0; the legacy server appends the same kind of zero-token error entry but
answers HTTP 500 with no errorCode field in the body. -/
theorem unknown_provider_responses (store : MetricsStore) (provider : String)
    (bodyPrompt bodyModel : Option String) (metrics : List LegacyEntry)
    (ar : Except JsError RawResult) (elapsed : ℚ) (now : Nat)
    (h : isProviderAvailable provider = false) :
    (handleCall store (some provider) bodyPrompt bodyModel ar elapsed now).status = 400
    ∧ (handleCall store (some provider) bodyPrompt bodyModel ar elapsed now).bodyErrorCode
        = some "INVALID_REQUEST"
    ∧ (handleCall store (some provider) bodyPrompt bodyModel ar elapsed now).entry.totalTokens
        = 0
    ∧ (handleCall store (some provider) bodyPrompt bodyModel ar elapsed now).entry.error
        ≠ none
    ∧ (handleCall store (some provider) bodyPrompt bodyModel ar elapsed now).store
        = store.add (handleCall store (some provider) bodyPrompt bodyModel ar elapsed now).entry
    ∧ (handleCallLegacy metrics (some provider) bodyPrompt bodyModel ar elapsed now).status
        = 500
    ∧ (handleCallLegacy metrics (some provider) bodyPrompt bodyModel ar elapsed now).bodyErrorCode
        = none
    ∧ (handleCallLegacy metrics (some provider) bodyPrompt bodyModel ar elapsed now).entry.totalTokens
        = 0
    ∧ (handleCallLegacy metrics (some provider) bodyPrompt bodyModel ar elapsed now).metrics
        = legacyPush metrics
            (handleCallLegacy metrics (some provider) bodyPrompt bodyModel ar elapsed now).entry := by
  have hcall : callProvider provider (some (bodyPrompt.getD "")) bodyModel ar elapsed
      = Except.error (InvalidRequestError
          ("Unknown provider: " ++ provider ++ ". Available providers: " ++ joinedProviders)) := by
    simp [callProvider, h]
  refine ⟨?_, ?_, ?_, ?_, ?_, ?_, ?_, ?_, ?_⟩ <;>
    simp [handleCall, handleCallLegacy, hcall, InvalidRequestError]

theorem unknown_provider_responses_witness :
    (handleCall (emptyStore 500) (some "not-a-provider") (some "hi") none
      (Except.error (JsError.plain "Error" none "x")) 0 0).status = 400
    ∧ (handleCall (emptyStore 500) (some "not-a-provider") (some "hi") none
      (Except.error (JsError.plain "Error" none "x")) 0 0).bodyErrorCode
        = some "INVALID_REQUEST" :=
  ⟨(unknown_provider_responses (emptyStore 500) "not-a-provider" (some "hi") none []
      (Except.error (JsError.plain "Error" none "x")) 0 0 (by decide)).1,
   (unknown_provider_responses (emptyStore 500) "not-a-provider" (some "hi") none []
      (Except.error (JsError.plain "Error" none "x")) 0 0 (by decide)).2.1⟩
